import Mathlib

/-!
Verification development for the TalkSim frontend (src/frontend/src/App.js).

The component keeps four pieces of React state (`textInput`, `fileInput`,
`audioUrl`, `isLoading`) and two handlers:

* `handleSubmit` — resolves the submission payload: if a file is selected,
  a `FileReader` reads it and, on load, `sendData` is called with the file
  content (no `onerror` handler is installed); otherwise, if the trimmed
  text is non-empty, `sendData` is called with the raw (untrimmed) text;
  otherwise an alert is shown and nothing else happens.
* `sendData` — sets `isLoading`, POSTs `{ text: content }` to the fixed
  endpoint via axios, and on a resolved response with status 200 stores
  `response.data.audioUrl`; a resolved non-200 response alerts one message,
  a rejected promise (network failure or non-2xx status, per axios's
  default `validateStatus`) alerts another; finally clears `isLoading`.

We embed this as pure state-passing functions.  The network is modelled by
an oracle value (`HttpOutcome`) describing what the single request would
encounter; observable effects (dispatched requests, alert notifications)
are collected in an `Effects` record.
-/

/-- A selected file, as delivered by the browser's file picker.  Reading it
with `FileReader.readAsText` either yields its decoded UTF-8 text (`some`)
or fails (`none`); we record that outcome in the file value since the
component never retries a read. -/
structure FileRef where
  name : String
  readResult : Option String
deriving Repr, DecidableEq

/-- JavaScript's `String.prototype.trim()`: the string with whitespace
stripped from both ends.  (Lean's own `String.trim` is extensionally the
same but is defined through well-founded recursion, which the kernel
cannot evaluate; this list-based form reduces.) -/
def jsTrim (s : String) : String :=
  String.mk (((s.data.dropWhile Char.isWhitespace).reverse.dropWhile
    Char.isWhitespace).reverse)

/-- The component-local React state of `App`. -/
structure AppState where
  textInput : String
  fileInput : Option FileRef
  audioUrl : String
  isLoading : Bool
deriving Repr, DecidableEq

/-- What the single HTTP request encounters: either the server responds
with a status code and a body whose `audioUrl` field we record, or the
request fails at the network level. -/
inductive HttpOutcome where
  | response (status : Nat) (bodyAudioUrl : String)
  | networkFailure
deriving Repr, DecidableEq

/-- One dispatched HTTP request: method, URL, and the JSON body as a list
of key/value fields (the source builds the object literal
`{ text: content }`, a single field). -/
structure Request where
  method : String
  url : String
  body : List (String × String)
deriving Repr, DecidableEq

/-- Observable side effects of a handler run: the requests dispatched and
the `alert` notifications shown, in order. -/
structure Effects where
  requests : List Request
  alerts : List String
deriving Repr, DecidableEq

/-- The hard-coded endpoint `API_ENDPOINT` in App.js. -/
def API_ENDPOINT : String := "http://127.0.0.1:5000/process-text"

/-- `axios.post` resolution: with the default `validateStatus`, the promise
resolves exactly when the response status is in [200, 300), carrying the
status and the parsed body; otherwise (non-2xx status or network failure)
it rejects. -/
def axiosPost (net : HttpOutcome) : Except Unit (Nat × String) :=
  match net with
  | HttpOutcome.response status bodyAudioUrl =>
      if 200 ≤ status ∧ status < 300 then Except.ok (status, bodyAudioUrl)
      else Except.error ()
  | HttpOutcome.networkFailure => Except.error ()

/-- The intermediate state after `setIsLoading(true)` at the top of
`sendData`: the state in which the request is in flight. -/
def loadingState (st : AppState) : AppState :=
  { st with isLoading := true }

/-- The alert message of the `else` branch in `sendData` (resolved response
whose status is not 200). -/
def serverRejectedMessage : String := "Error processing your request."

/-- The alert message of the `catch` branch in `sendData` (rejected axios
promise). -/
def transportMessage : String := "An error occurred while processing your request."

/-- The alert message shown when neither a file nor non-blank text is
present. -/
def emptyInputMessage : String := "Please enter text or select a text file."

/-- The request `sendData` dispatches for a given payload `content`:
`axios.post(API_ENDPOINT, { text: content })`. -/
def postRequest (content : String) : Request :=
  { method := "POST", url := API_ENDPOINT, body := [("text", content)] }

/-- The `try`/`catch` body of `sendData` around the awaited axios promise:
a resolved response with status 200 stores `response.data.audioUrl`; a
resolved response with any other status alerts `serverRejectedMessage`; a
rejected promise is caught and alerts `transportMessage`.  Returns the
updated state together with the alerts shown. -/
def handleResponse (st1 : AppState) (r : Except Unit (Nat × String)) :
    AppState × List String :=
  match r with
  | Except.ok resp =>
      if resp.1 == 200 then ({ st1 with audioUrl := resp.2 }, [])
      else (st1, [serverRejectedMessage])
  | Except.error _ => (st1, [transportMessage])

/-- Embedding of `sendData(content)`: set `isLoading`, POST
`{ text: content }` to `API_ENDPOINT`, handle the outcome, clear
`isLoading`. -/
def sendData (net : HttpOutcome) (content : String) (st : AppState) :
    AppState × Effects :=
  let st1 := loadingState st
  let res := handleResponse st1 (axiosPost net)
  ({ res.1 with isLoading := false },
   { requests := [postRequest content], alerts := res.2 })

/-- Embedding of `handleSubmit`: `content` starts as `textInput`; if a file
is selected, the `FileReader`'s `onload` callback overwrites `content` with
the read result and calls `sendData` — a failed read fires no handler, so
nothing further happens; with no file, non-blank trimmed text sends the raw
`content`, and otherwise an alert is shown. -/
def handleSubmit (net : HttpOutcome) (st : AppState) : AppState × Effects :=
  match st.fileInput with
  | some f =>
      match f.readResult with
      | some fileText => sendData net fileText st
      | none => (st, { requests := [], alerts := [] })
  | none =>
      if jsTrim st.textInput ≠ "" then sendData net st.textInput st
      else (st, { requests := [], alerts := [emptyInputMessage] })

/-- The `disabled` attribute of the submit button: `disabled={isLoading}`. -/
def submitDisabled (st : AppState) : Bool := st.isLoading

/-- Whether the audio container is rendered: `{audioUrl && (...)}`. -/
def audioRendered (st : AppState) : Bool := st.audioUrl ≠ ""

/-- A sequence of submissions: each element of `nets` is the network
outcome met by one `handleSubmit` run, applied in order to the evolving
state (effects discarded; we only track the state here). -/
def submitIter (nets : List HttpOutcome) (st : AppState) : AppState :=
  match nets with
  | [] => st
  | net :: rest => submitIter rest (handleSubmit net st).1

lemma handleResponse_textInput (st1 : AppState) (r : Except Unit (Nat × String)) :
    (handleResponse st1 r).1.textInput = st1.textInput := by
  cases r with
  | ok resp => by_cases h : resp.1 == 200 <;> simp [handleResponse, h]
  | error e => rfl

lemma handleResponse_fileInput (st1 : AppState) (r : Except Unit (Nat × String)) :
    (handleResponse st1 r).1.fileInput = st1.fileInput := by
  cases r with
  | ok resp => by_cases h : resp.1 == 200 <;> simp [handleResponse, h]
  | error e => rfl

lemma sendData_textInput (net : HttpOutcome) (c : String) (st : AppState) :
    (sendData net c st).1.textInput = st.textInput := by
  simp [sendData, loadingState, handleResponse_textInput]

lemma sendData_fileInput (net : HttpOutcome) (c : String) (st : AppState) :
    (sendData net c st).1.fileInput = st.fileInput := by
  simp [sendData, loadingState, handleResponse_fileInput]

lemma handleSubmit_textInput (net : HttpOutcome) (st : AppState) :
    (handleSubmit net st).1.textInput = st.textInput := by
  cases h : st.fileInput with
  | none =>
      by_cases ht : jsTrim st.textInput = "" <;>
        simp [handleSubmit, h, ht, sendData_textInput]
  | some f =>
      cases hr : f.readResult with
      | some t => simp [handleSubmit, h, hr, sendData_textInput]
      | none => simp [handleSubmit, h, hr]

lemma handleSubmit_fileInput (net : HttpOutcome) (st : AppState) :
    (handleSubmit net st).1.fileInput = st.fileInput := by
  cases h : st.fileInput with
  | none =>
      by_cases ht : jsTrim st.textInput = "" <;>
        simp [handleSubmit, h, ht, sendData_fileInput]
  | some f =>
      cases hr : f.readResult with
      | some t => simp [handleSubmit, h, hr, sendData_fileInput, h]
      | none => simp [handleSubmit, h, hr]

lemma submitIter_inputs (nets : List HttpOutcome) (st : AppState) :
    (submitIter nets st).textInput = st.textInput ∧
    (submitIter nets st).fileInput = st.fileInput := by
  induction nets generalizing st with
  | nil => exact ⟨rfl, rfl⟩
  | cons net rest ih =>
      have h := ih (handleSubmit net st).1
      exact ⟨h.1.trans (handleSubmit_textInput net st),
             h.2.trans (handleSubmit_fileInput net st)⟩

lemma sendData_requests (net : HttpOutcome) (c : String) (st : AppState) :
    (sendData net c st).2.requests = [postRequest c] := rfl

lemma sendData_200 (c url : String) (st : AppState) :
    sendData (HttpOutcome.response 200 url) c st =
      ({ st with audioUrl := url, isLoading := false },
       { requests := [postRequest c], alerts := [] }) := by
  simp [sendData, axiosPost, handleResponse, loadingState]

lemma sendData_2xx_not200 (c url : String) (st : AppState) (s : Nat)
    (h1 : 200 ≤ s) (h2 : s < 300) (h3 : s ≠ 200) :
    sendData (HttpOutcome.response s url) c st =
      ({ st with isLoading := false },
       { requests := [postRequest c], alerts := [serverRejectedMessage] }) := by
  have hb : (s == 200) = false := by simp [h3]
  simp [sendData, axiosPost, handleResponse, loadingState, h1, h2, hb]

lemma sendData_non2xx (c url : String) (st : AppState) (s : Nat)
    (h : ¬(200 ≤ s ∧ s < 300)) :
    sendData (HttpOutcome.response s url) c st =
      ({ st with isLoading := false },
       { requests := [postRequest c], alerts := [transportMessage] }) := by
  simp [sendData, axiosPost, handleResponse, loadingState, h]

lemma sendData_network (c : String) (st : AppState) :
    sendData HttpOutcome.networkFailure c st =
      ({ st with isLoading := false },
       { requests := [postRequest c], alerts := [transportMessage] }) := rfl

lemma handleSubmit_file_requests (net : HttpOutcome) (st : AppState)
    (f : FileRef) (t : String)
    (hf : st.fileInput = some f) (hr : f.readResult = some t) :
    (handleSubmit net st).2.requests = [postRequest t] := by
  simp [handleSubmit, hf, hr, sendData_requests]

/-- Claim C1, counterexample: with no file and pasted text `"  hi  "` (non-empty
after trimming), the dispatched payload is the raw string `"  hi  "`, while the
trimmed text is `"hi"` — so the payload does not equal the trimmed pasted text:
`content` is captured before trimming, and `trim` is used only for the
emptiness test. -/
theorem c1_counterexample :
    (handleSubmit (HttpOutcome.response 200 "u")
      { textInput := "  hi  ", fileInput := none,
        audioUrl := "", isLoading := false }).2.requests = [postRequest "  hi  "] ∧
    jsTrim "  hi  " = "hi" ∧
    postRequest "  hi  " ≠ postRequest (jsTrim "  hi  ") := by
  decide

/-- Claim C1, amended: for every submission with no file attached and pasted
text that is non-empty after trimming, the payload sent to the endpoint is the
pasted text exactly as typed (untrimmed); trimming is applied only to decide
whether the text is empty. -/
theorem c1_payload_is_untrimmed_text (net : HttpOutcome) (st : AppState)
    (hf : st.fileInput = none) (ht : jsTrim st.textInput ≠ "") :
    (handleSubmit net st).2.requests = [postRequest st.textInput] := by
  simp [handleSubmit, hf, ht, sendData_requests]

/-- Claim C1, witness for the amended theorem at a concrete input. -/
theorem c1_witness :
    (handleSubmit (HttpOutcome.response 200 "u")
      { textInput := " ab ", fileInput := none,
        audioUrl := "", isLoading := false }).2.requests = [postRequest " ab "] :=
  c1_payload_is_untrimmed_text (HttpOutcome.response 200 "u")
    { textInput := " ab ", fileInput := none, audioUrl := "", isLoading := false }
    rfl (by decide)

/-- Claim C2: whenever a file is attached (whatever pasted text is present),
the file branch is taken — the submission is exactly `sendData` on the file's
decoded text — and the request payload is the file's decoded content,
independent of `textInput`. -/
theorem c2_file_precedence (net : HttpOutcome) (st : AppState)
    (f : FileRef) (t : String)
    (hf : st.fileInput = some f) (hr : f.readResult = some t) :
    handleSubmit net st = sendData net t st ∧
    (handleSubmit net st).2.requests = [postRequest t] := by
  constructor
  · simp [handleSubmit, hf, hr]
  · exact handleSubmit_file_requests net st f t hf hr

/-- Claim C2, witness: a file containing `"Read me"` together with concurrently
typed text; the request payload is the file content. -/
theorem c2_witness :
    handleSubmit (HttpOutcome.response 200 "u")
        { textInput := "typed text",
          fileInput := some { name := "notes.txt", readResult := some "Read me" },
          audioUrl := "", isLoading := false }
      = sendData (HttpOutcome.response 200 "u") "Read me"
          { textInput := "typed text",
            fileInput := some { name := "notes.txt", readResult := some "Read me" },
            audioUrl := "", isLoading := false } ∧
    (handleSubmit (HttpOutcome.response 200 "u")
        { textInput := "typed text",
          fileInput := some { name := "notes.txt", readResult := some "Read me" },
          audioUrl := "", isLoading := false }).2.requests = [postRequest "Read me"] :=
  c2_file_precedence (HttpOutcome.response 200 "u")
    { textInput := "typed text",
      fileInput := some { name := "notes.txt", readResult := some "Read me" },
      audioUrl := "", isLoading := false }
    { name := "notes.txt", readResult := some "Read me" } "Read me" rfl rfl

/-- Claim C3: a dispatched request succeeds exactly on HTTP status 200 — the
response body's `audioUrl` is stored and no alert is shown; on any other
status (2xx or not) the stored `audioUrl` is unchanged and exactly one error
alert is shown. -/
theorem c3_success_iff_200 (st : AppState) (c : String) (s : Nat) (url : String) :
    (s = 200 →
      (sendData (HttpOutcome.response s url) c st).1.audioUrl = url ∧
      (sendData (HttpOutcome.response s url) c st).2.alerts = []) ∧
    (s ≠ 200 →
      (sendData (HttpOutcome.response s url) c st).1.audioUrl = st.audioUrl ∧
      (sendData (HttpOutcome.response s url) c st).2.alerts.length = 1) := by
  constructor
  · intro h
    subst h
    simp [sendData_200]
  · intro h
    by_cases h2 : 200 ≤ s ∧ s < 300
    · simp [sendData_2xx_not200 c url st s h2.1 h2.2 h]
    · simp [sendData_non2xx c url st s h2]

/-- Claim C3, witness: status 200 stores the body's `audioUrl` with no alert;
status 500 leaves `audioUrl` unchanged and shows one alert. -/
theorem c3_witness :
    ((sendData (HttpOutcome.response 200 "http://x/a.mp3") "Hi"
        { textInput := "Hi", fileInput := none, audioUrl := "old", isLoading := false }).1.audioUrl
        = "http://x/a.mp3" ∧
     (sendData (HttpOutcome.response 200 "http://x/a.mp3") "Hi"
        { textInput := "Hi", fileInput := none, audioUrl := "old", isLoading := false }).2.alerts = []) ∧
    ((sendData (HttpOutcome.response 500 "ignored") "Hi"
        { textInput := "Hi", fileInput := none, audioUrl := "old", isLoading := false }).1.audioUrl
        = "old" ∧
     (sendData (HttpOutcome.response 500 "ignored") "Hi"
        { textInput := "Hi", fileInput := none, audioUrl := "old", isLoading := false }).2.alerts.length = 1) :=
  ⟨(c3_success_iff_200
      { textInput := "Hi", fileInput := none, audioUrl := "old", isLoading := false }
      "Hi" 200 "http://x/a.mp3").1 rfl,
   (c3_success_iff_200
      { textInput := "Hi", fileInput := none, audioUrl := "old", isLoading := false }
      "Hi" 500 "ignored").2 (by decide)⟩

/-- Claim C4: with no file and text that is empty after trimming, the submit
handler performs zero network requests, shows the empty-input notification,
and returns the state completely unchanged. -/
theorem c4_empty_input_idle (net : HttpOutcome) (st : AppState)
    (hf : st.fileInput = none) (ht : jsTrim st.textInput = "") :
    handleSubmit net st = (st, { requests := [], alerts := [emptyInputMessage] }) := by
  simp [handleSubmit, hf, ht]

/-- Claim C4, witness: whitespace-only text and no file, from the idle state. -/
theorem c4_witness :
    handleSubmit HttpOutcome.networkFailure
        { textInput := "   ", fileInput := none, audioUrl := "", isLoading := false }
      = ({ textInput := "   ", fileInput := none, audioUrl := "", isLoading := false },
         { requests := [], alerts := [emptyInputMessage] }) :=
  c4_empty_input_idle HttpOutcome.networkFailure
    { textInput := "   ", fileInput := none, audioUrl := "", isLoading := false }
    rfl (by decide)

/-- Claim C5: every `sendData` call dispatches exactly one request — a POST to
the fixed `API_ENDPOINT` whose JSON body has the single field
`"text"` holding the payload — regardless of the network outcome (so there is
never a retry). -/
theorem c5_single_post_request (net : HttpOutcome) (p : String) (st : AppState) :
    (sendData net p st).2.requests = [postRequest p] ∧
    postRequest p = { method := "POST", url := API_ENDPOINT, body := [("text", p)] } :=
  ⟨rfl, rfl⟩

/-- Claim C6, counterexample: when the attached file's read fails, the handler
shows no notification at all (the `FileReader` has no `onerror` handler), so
the failure is not surfaced as a FileReadError alert; no request is sent. -/
theorem c6_counterexample :
    (handleSubmit HttpOutcome.networkFailure
      { textInput := "", fileInput := some { name := "bad.txt", readResult := none },
        audioUrl := "", isLoading := false }).2.alerts = [] ∧
    (handleSubmit HttpOutcome.networkFailure
      { textInput := "", fileInput := some { name := "bad.txt", readResult := none },
        audioUrl := "", isLoading := false }).2.requests = [] := by
  decide

/-- Claim C6, amended: when the attached file's read fails, the submission is
aborted before any network call — zero requests are dispatched and the state
is unchanged — but silently: no user-visible notification is produced, because
the code installs no error handler on the `FileReader`. -/
theorem c6_read_failure_silent_abort (net : HttpOutcome) (st : AppState)
    (f : FileRef) (hf : st.fileInput = some f) (hr : f.readResult = none) :
    handleSubmit net st = (st, { requests := [], alerts := [] }) := by
  simp [handleSubmit, hf, hr]

/-- Claim C6, witness for the amended theorem at a concrete input. -/
theorem c6_witness :
    handleSubmit HttpOutcome.networkFailure
        { textInput := "typed", fileInput := some { name := "bad.txt", readResult := none },
          audioUrl := "", isLoading := false }
      = ({ textInput := "typed", fileInput := some { name := "bad.txt", readResult := none },
           audioUrl := "", isLoading := false },
         { requests := [], alerts := [] }) :=
  c6_read_failure_silent_abort HttpOutcome.networkFailure
    { textInput := "typed", fileInput := some { name := "bad.txt", readResult := none },
      audioUrl := "", isLoading := false }
    { name := "bad.txt", readResult := none } rfl rfl

/-- Claim C7, counterexample: a non-200 response and a transport error are not
always surfaced identically — a 201 response alerts `serverRejectedMessage`
("Error processing your request.") while a network failure alerts
`transportMessage` ("An error occurred while processing your request."), and
the two strings differ. -/
theorem c7_counterexample :
    (sendData (HttpOutcome.response 201 "u") "Hi"
      { textInput := "Hi", fileInput := none, audioUrl := "", isLoading := false }).2.alerts
      = [serverRejectedMessage] ∧
    (sendData HttpOutcome.networkFailure "Hi"
      { textInput := "Hi", fileInput := none, audioUrl := "", isLoading := false }).2.alerts
      = [transportMessage] ∧
    serverRejectedMessage ≠ transportMessage := by
  decide

/-- Claim C7, amended: a transport error and a response whose status lies
outside 2xx are surfaced identically (axios rejects both, so the same catch
branch alerts `transportMessage`); but a 2xx response other than 200 reaches
the else branch and alerts the different message `serverRejectedMessage`. -/
theorem c7_alert_identity (st : AppState) (c : String) (s : Nat) (url : String) :
    (¬(200 ≤ s ∧ s < 300) →
      (sendData (HttpOutcome.response s url) c st).2.alerts =
        (sendData HttpOutcome.networkFailure c st).2.alerts) ∧
    (200 ≤ s → s < 300 → s ≠ 200 →
      (sendData (HttpOutcome.response s url) c st).2.alerts = [serverRejectedMessage] ∧
      (sendData HttpOutcome.networkFailure c st).2.alerts = [transportMessage] ∧
      serverRejectedMessage ≠ transportMessage) := by
  constructor
  · intro h
    simp [sendData_non2xx c url st s h, sendData_network]
  · intro h1 h2 h3
    refine ⟨?_, ?_, ?_⟩
    · simp [sendData_2xx_not200 c url st s h1 h2 h3]
    · simp [sendData_network]
    · decide

/-- Claim C7, witness for the amended theorem: status 500 matches the
transport-error alert; status 201 produces the other message. -/
theorem c7_witness :
    ((sendData (HttpOutcome.response 500 "u") "Hi"
        { textInput := "Hi", fileInput := none, audioUrl := "", isLoading := false }).2.alerts =
      (sendData HttpOutcome.networkFailure "Hi"
        { textInput := "Hi", fileInput := none, audioUrl := "", isLoading := false }).2.alerts) ∧
    ((sendData (HttpOutcome.response 201 "u") "Hi"
        { textInput := "Hi", fileInput := none, audioUrl := "", isLoading := false }).2.alerts
        = [serverRejectedMessage] ∧
     (sendData HttpOutcome.networkFailure "Hi"
        { textInput := "Hi", fileInput := none, audioUrl := "", isLoading := false }).2.alerts
        = [transportMessage] ∧
     serverRejectedMessage ≠ transportMessage) :=
  ⟨(c7_alert_identity
      { textInput := "Hi", fileInput := none, audioUrl := "", isLoading := false }
      "Hi" 500 "u").1 (by decide),
   (c7_alert_identity
      { textInput := "Hi", fileInput := none, audioUrl := "", isLoading := false }
      "Hi" 201 "u").2 (by decide) (by decide) (by decide)⟩

/-- Claim C8: the submit control is disabled exactly while the in-flight
loading state is active, and for every network outcome the state `sendData`
returns has `isLoading = false`, so the control is re-enabled and Loading is
never the final state of a completed submission. -/
theorem c8_loading_lifecycle (net : HttpOutcome) (c : String) (st : AppState) :
    submitDisabled (loadingState st) = true ∧
    (sendData net c st).1.isLoading = false ∧
    submitDisabled (sendData net c st).1 = false :=
  ⟨rfl, rfl, rfl⟩

/-- Claim C9: on every failed submission — any response status other than 200,
or a transport failure — the stored `audioUrl` keeps its previous value, so a
previously rendered result stays rendered. -/
theorem c9_audio_retained_on_failure (st : AppState) (c : String)
    (s : Nat) (url : String) :
    (s ≠ 200 →
      (sendData (HttpOutcome.response s url) c st).1.audioUrl = st.audioUrl ∧
      audioRendered (sendData (HttpOutcome.response s url) c st).1 = audioRendered st) ∧
    ((sendData HttpOutcome.networkFailure c st).1.audioUrl = st.audioUrl ∧
     audioRendered (sendData HttpOutcome.networkFailure c st).1 = audioRendered st) := by
  constructor
  · intro h
    by_cases h2 : 200 ≤ s ∧ s < 300
    · simp [sendData_2xx_not200 c url st s h2.1 h2.2 h, audioRendered]
    · simp [sendData_non2xx c url st s h2, audioRendered]
  · simp [sendData_network, audioRendered]

/-- Claim C9, witness: a 500 response leaves a previously stored `audioUrl`
value in place. -/
theorem c9_witness :
    (sendData (HttpOutcome.response 500 "u") "Hi"
      { textInput := "Hi", fileInput := none,
        audioUrl := "http://x/a.mp3", isLoading := false }).1.audioUrl = "http://x/a.mp3" ∧
    audioRendered (sendData (HttpOutcome.response 500 "u") "Hi"
      { textInput := "Hi", fileInput := none,
        audioUrl := "http://x/a.mp3", isLoading := false }).1
      = audioRendered
        { textInput := "Hi", fileInput := none,
          audioUrl := "http://x/a.mp3", isLoading := false } :=
  (c9_audio_retained_on_failure
    { textInput := "Hi", fileInput := none,
      audioUrl := "http://x/a.mp3", isLoading := false }
    "Hi" 500 "u").1 (by decide)

/-- Claim C10: submitting never writes the input sources — one `handleSubmit`
run and any sequence of runs leave `textInput` and `fileInput` exactly as
they were — so a selected file persists across arbitrarily many submissions,
and any later submit still sends the file's content (ignoring typed text)
until a different file is chosen. -/
theorem c10_inputs_never_written (nets : List HttpOutcome) (net : HttpOutcome)
    (st : AppState) :
    (handleSubmit net st).1.textInput = st.textInput ∧
    (handleSubmit net st).1.fileInput = st.fileInput ∧
    (submitIter nets st).textInput = st.textInput ∧
    (submitIter nets st).fileInput = st.fileInput ∧
    (∀ f t, st.fileInput = some f → f.readResult = some t →
      (handleSubmit net (submitIter nets st)).2.requests = [postRequest t]) := by
  refine ⟨handleSubmit_textInput net st, handleSubmit_fileInput net st,
          (submitIter_inputs nets st).1, (submitIter_inputs nets st).2, ?_⟩
  intro f t hf hr
  exact handleSubmit_file_requests net (submitIter nets st) f t
    ((submitIter_inputs nets st).2.trans hf) hr

/-- Claim C10, witness: after two submissions (one success, one failure) the
selected file is still attached, the typed text is untouched, and a third
submit still sends the file's content. -/
theorem c10_witness :
    (handleSubmit HttpOutcome.networkFailure
      { textInput := "typed", fileInput := some { name := "n.txt", readResult := some "F" },
        audioUrl := "", isLoading := false }).1.textInput = "typed" ∧
    (handleSubmit HttpOutcome.networkFailure
      { textInput := "typed", fileInput := some { name := "n.txt", readResult := some "F" },
        audioUrl := "", isLoading := false }).1.fileInput
      = some { name := "n.txt", readResult := some "F" } ∧
    (submitIter [HttpOutcome.response 200 "u", HttpOutcome.networkFailure]
      { textInput := "typed", fileInput := some { name := "n.txt", readResult := some "F" },
        audioUrl := "", isLoading := false }).textInput = "typed" ∧
    (submitIter [HttpOutcome.response 200 "u", HttpOutcome.networkFailure]
      { textInput := "typed", fileInput := some { name := "n.txt", readResult := some "F" },
        audioUrl := "", isLoading := false }).fileInput
      = some { name := "n.txt", readResult := some "F" } ∧
    (∀ f t, (some { name := "n.txt", readResult := some "F" } : Option FileRef) = some f →
      f.readResult = some t →
      (handleSubmit HttpOutcome.networkFailure
        (submitIter [HttpOutcome.response 200 "u", HttpOutcome.networkFailure]
          { textInput := "typed", fileInput := some { name := "n.txt", readResult := some "F" },
            audioUrl := "", isLoading := false })).2.requests = [postRequest t]) :=
  c10_inputs_never_written
    [HttpOutcome.response 200 "u", HttpOutcome.networkFailure]
    HttpOutcome.networkFailure
    { textInput := "typed", fileInput := some { name := "n.txt", readResult := some "F" },
      audioUrl := "", isLoading := false }
